import Mathlib

/-!
Verification of the tabular operation pipeline in `src/tools/data_tools.py`:
`DataFrameLoadTool.run`, `DataFrameAnalysisTool.run` and `DataVisualizationTool.run`.

The embedding works at the boundary where `json.loads` has already produced a
Python value (`JVal`), and models the filesystem as a map from paths to parsed
file contents.  Library kernels whose numeric output the tools merely forward
(seaborn rendering calls, the per-column statistics inside `describe`, the
Pearson coefficient inside `corr`, the `query`/`eval`/`groupby` engines of
pandas) are fields of an `Env` record; everything the repository's own lines
decide — dispatch, parameter lookup and defaults, staging-file handling, the
CSV round trip, numeric-column selection, the `nunique` rotation threshold,
error conversion — is defined concretely below.
-/

/-- A Python value produced by `json.loads` (JSON null/bool/number/string/
array/object; objects keep key order as Python dicts do). -/
inductive JVal where
  | null : JVal
  | bool : Bool → JVal
  | num : ℚ → JVal
  | str : String → JVal
  | arr : List JVal → JVal
  | obj : List (String × JVal) → JVal

/-- A scalar cell of a pandas DataFrame as obtained from `pd.read_csv`:
a number, a string, or a missing value (NaN). -/
inductive Value where
  | num : ℚ → Value
  | str : String → Value
  | null : Value
deriving DecidableEq

/-- A pandas DataFrame: named columns and rows of cells. -/
structure DataFrame where
  cols : List String
  rows : List (List Value)

/-- The text of a delimited file, already split into header and body cells
(the quoting layer of the CSV format is below this abstraction). -/
structure RawCsv where
  header : List String
  body : List (List String)

/-- What a path holds on disk: a well-formed table for its parser, or content
the parser rejects. -/
inductive FileContent where
  | table : RawCsv → FileContent
  | corrupt : String → FileContent

/-- The filesystem: which parsed content each path holds. -/
def FS : Type := String → Option FileContent

/-- Result of one tool call, before serialization: `payload` is a value the
code passes through `json.dumps`, `msg` a plain diagnostic string. -/
inductive ToolOut where
  | payload : JVal → ToolOut
  | msg : String → ToolOut

/-- Whether a tool result is a plain (diagnostic) string rather than a
serialized payload. -/
def ToolOut.isMsg : ToolOut → Bool
  | .payload _ => false
  | .msg _ => true

/-- `d[k]` lookup in a Python dict (first binding wins, as in dicts there is
at most one). -/
def objGet : List (String × JVal) → String → Option JVal
  | [], _ => none
  | (k, v) :: rest, key => if k = key then some v else objGet rest key

/-- `d.get(k, default)`. -/
def objGetD (kvs : List (String × JVal)) (key : String) (d : JVal) : JVal :=
  (objGet kvs key).getD d

/-- Python `==` between a value and a string literal. -/
def jEqS : JVal → String → Bool
  | .str s, t => s == t
  | _, _ => false

/-- Python truthiness of a JSON-shaped value. -/
def jTruthy : JVal → Bool
  | .null => false
  | .bool b => b
  | .num q => !(q == 0)
  | .str s => !s.data.isEmpty
  | .arr xs => !xs.isEmpty
  | .obj kvs => !kvs.isEmpty

/-- Decimal text of a rational as Python prints JSON numbers (exact only for
integers, which is all the claims exercise). -/
def numText (q : ℚ) : String :=
  if q.den = 1 then toString q.num else toString q

mutual

/-- Python `repr` of a `json.loads` value. -/
def pyRepr : JVal → String
  | .null => "None"
  | .bool b => if b then "True" else "False"
  | .num q => numText q
  | .str s => "'" ++ s ++ "'"
  | .arr xs => "[" ++ pyReprList xs ++ "]"
  | .obj kvs => "\x7b" ++ pyReprKVs kvs ++ "\x7d"

/-- `repr` of list elements, comma separated. -/
def pyReprList : List JVal → String
  | [] => ""
  | [x] => pyRepr x
  | x :: xs => pyRepr x ++ ", " ++ pyReprList xs

/-- `repr` of dict items, comma separated. -/
def pyReprKVs : List (String × JVal) → String
  | [] => ""
  | [(k, v)] => "'" ++ k ++ "': " ++ pyRepr v
  | (k, v) :: xs => "'" ++ k ++ "': " ++ pyRepr v ++ ", " ++ pyReprKVs xs

end

/-- Python `str` of a `json.loads` value, as an f-string interpolates it. -/
def pyStr : JVal → String
  | .str s => s
  | v => pyRepr v

/-- Split of a character list at a separator; on an empty list one empty
part, as Python's `str.split` with an explicit separator gives. -/
def splitOnChar (sep : Char) (cs : List Char) : List (List Char) :=
  cs.foldr
    (fun c acc => match acc with
      | a :: rest => if c = sep then [] :: a :: rest else (c :: a) :: rest
      | [] => [[c]])
    [[]]

/-- `str.lower()`. -/
def lowerStr (p : String) : String :=
  String.mk (p.data.map Char.toLower)

/-- Digits-only character list to a natural number. -/
def natDigits? (cs : List Char) : Option ℕ :=
  match cs with
  | [] => none
  | _ => cs.foldl
      (fun acc c => acc.bind fun n =>
        if c.isDigit then some (10 * n + (c.toNat - 48)) else none)
      (some 0)

/-- Numeric literal parse the way `pd.read_csv` type inference accepts plain
decimal cells: optional sign, digits, optional fractional part. -/
def ratOfChars? (cs : List Char) : Option ℚ :=
  let core := fun (t : List Char) =>
    match splitOnChar '.' t with
    | [a] => (natDigits? a).map fun n => (n : ℚ)
    | [a, b] =>
      match natDigits? a, natDigits? b with
      | some n, some m => some ((n : ℚ) + (m : ℚ) / (10 : ℚ) ^ b.length)
      | _, _ => none
    | _ => none
  match cs with
  | '-' :: rest => (core rest).map fun q => -q
  | _ => core cs

/-- How `pd.read_csv` types one textual cell: empty is missing, a decimal
literal is numeric, anything else is text. -/
def parseCell (s : String) : Value :=
  match s.data with
  | [] => .null
  | cs =>
    match ratOfChars? cs with
    | some q => .num q
    | none => .str s

/-- How `DataFrame.to_csv(index=False)` writes one cell. -/
def cellToCsv : Value → String
  | .null => ""
  | .str s => s
  | .num q => numText q

/-- `to_csv(index=False)`: header line then one line per row. -/
def toCsv (df : DataFrame) : RawCsv :=
  ⟨df.cols, df.rows.map fun r => r.map cellToCsv⟩

/-- The DataFrame a well-formed table denotes (cells type-inferred). -/
def dfOfRaw (t : RawCsv) : DataFrame :=
  ⟨t.header, t.body.map fun r => r.map parseCell⟩

/-- `pd.read_csv` on a staged table: a file with no header columns raises
`EmptyDataError`, otherwise the type-inferred DataFrame. -/
def readCsvDf (t : RawCsv) : Except String DataFrame :=
  if t.header.isEmpty then .error "No columns to parse from file"
  else .ok (dfOfRaw t)

/-- Index of a column name in a header (header length when absent). -/
def colIdx : List String → String → ℕ
  | [], _ => 0
  | k :: rest, c => if k = c then 0 else colIdx rest c + 1

/-- The cells of the named column. -/
def colCells (df : DataFrame) (c : String) : List Value :=
  df.rows.map fun r => r.getD (colIdx df.cols c) .null

/-- Whether a cell fits a numeric dtype (numbers and NaN do, text does not). -/
def isNumCell : Value → Bool
  | .num _ => true
  | .null => true
  | .str _ => false

/-- The columns whose inferred dtype is numeric, in header order. -/
def numericCols (df : DataFrame) : List String :=
  df.cols.filter fun c => (colCells df c).all isNumCell

/-- `df.select_dtypes(include=['number'])`. -/
def selectNumeric (df : DataFrame) : DataFrame :=
  ⟨numericCols df,
   df.rows.map fun r => (numericCols df).map fun c => r.getD (colIdx df.cols c) .null⟩

/-- `DataFrame.empty`: true when either axis has length 0. -/
def dfEmpty (df : DataFrame) : Bool :=
  df.cols.isEmpty || df.rows.isEmpty

/-- `Series.nunique()`: distinct non-missing values. -/
def nuniqueCells (cells : List Value) : ℕ :=
  ((cells.filter fun v => v ≠ .null).dedup).length

/-- `df.head(n)` (a negative `n` drops the last `-n` rows, as in pandas). -/
def dfHead (n : ℤ) (df : DataFrame) : DataFrame :=
  ⟨df.cols,
   if 0 ≤ n then df.rows.take n.toNat
   else df.rows.take (df.rows.length - n.natAbs)⟩

/-- A cell as the JSON value `json.dumps` receives. -/
def valJ : Value → JVal
  | .num q => .num q
  | .str s => .str s
  | .null => .null

/-- `df.to_dict(orient='records')`. -/
def recordsOf (df : DataFrame) : List JVal :=
  df.rows.map fun r => .obj (df.cols.zip (r.map valJ))

/-- `df.shape` as the JSON array `json.dumps` makes of the tuple. -/
def shapeJ (df : DataFrame) : JVal :=
  .arr [.num (df.rows.length : ℚ), .num (df.cols.length : ℚ)]

/-- Result of the `custom` operation's `eval`: a DataFrame (converted to
records by the tool) or any other JSON-serializable value. -/
inductive CustomResult where
  | frame : DataFrame → CustomResult
  | val : JVal → CustomResult

/-- The library kernels the tools call into: pandas numeric/grouping/query
engines and the seaborn/matplotlib rendering backend.  Each field models one
call the source forwards to; any of them may raise (return `.error`). -/
structure Env where
  colStats : JVal → List Value → JVal
  validatePcts : JVal → Except String Unit
  objectDescribe : JVal → DataFrame → Except String JVal
  pearson : List Value → List Value → JVal
  groupbyAgg : JVal → JVal → DataFrame → Except String JVal
  evalQuery : JVal → DataFrame → Except String DataFrame
  evalCustom : JVal → DataFrame → Except String CustomResult
  histplot : DataFrame → JVal → JVal → Except String Unit
  scatterplot : DataFrame → JVal → JVal → Option JVal → Except String Unit
  barplot : DataFrame → JVal → JVal → Except String Unit
  lineplot : DataFrame → JVal → JVal → Except String Unit
  heatmap : JVal → JVal → JVal → Except String Unit
  boxplot : DataFrame → JVal → Option JVal → Except String Unit
  makedirs : String → Except String Unit
  saveFigure : String → Except String Unit

/-- `file_path.split('.')[-1].lower()` (line 25 of the source). -/
def fileExt (p : String) : String :=
  lowerStr (String.mk ((splitOnChar '.' p.data).getLastD []))

/-- Opening a source file: missing path raises `FileNotFoundError`, content
the format's parser rejects raises that parser's error. -/
def getFile (fs : FS) (p : String) : Except String RawCsv :=
  match fs p with
  | none => .error ("[Errno 2] No such file or directory: '" ++ p ++ "'")
  | some (.corrupt r) => .error r
  | some (.table t) => .ok t

/-- The extension dispatch of `DataFrameLoadTool.run` (lines 25-34): `.inl`
is the early "Unsupported file format" return, `.inr` a parsed DataFrame. -/
def loadParse (fs : FS) (p : String) : Except String (String ⊕ DataFrame) :=
  let ext := fileExt p
  if ext = "csv" then
    match getFile fs p with
    | .error e => .error e
    | .ok t =>
      match readCsvDf t with
      | .error e => .error e
      | .ok df => .ok (.inr df)
  else if ext = "xls" || ext = "xlsx" then
    match getFile fs p with
    | .error e => .error e
    | .ok t => .ok (.inr (dfOfRaw t))
  else if ext = "json" then
    match getFile fs p with
    | .error e => .error e
    | .ok t => .ok (.inr (dfOfRaw t))
  else .ok (.inl ("Unsupported file format: " ++ ext))

/-- `str(dtype)` of a column after `read_csv` type inference. -/
def dtypeName (cells : List Value) : String :=
  if cells.all fun c => match c with | .num q => q.den = 1 | _ => false then "int64"
  else if cells.all isNumCell then "float64"
  else "object"

/-- The `info_dict` summary the Loader serializes (lines 41-49). -/
def loadSummary (df : DataFrame) (path : String) : JVal :=
  .obj
    [("shape", shapeJ df),
     ("columns", .arr (df.cols.map .str)),
     ("dtypes", .obj (df.cols.map fun c => (c, .str (dtypeName (colCells df c))))),
     ("missing_values", .obj (df.cols.map fun c =>
        (c, .num (((colCells df c).filter fun v => v = .null).length : ℚ)))),
     ("sample_data", .arr (recordsOf (dfHead 5 df))),
     ("file_path", .str path),
     ("temp_path", .str "temp_dataframe.csv")]

/-- Body of `DataFrameLoadTool.run` inside its `try` (lines 23-51), with the
staging write as the returned filesystem. -/
def loadRunExc (fs : FS) (p : String) : Except String (ToolOut × FS) :=
  match loadParse fs p with
  | .error e => .error e
  | .ok (.inl m) => .ok (.msg m, fs)
  | .ok (.inr df) =>
    .ok (.payload (loadSummary df p),
         fun q => if q = "temp_dataframe.csv" then some (.table (toCsv df)) else fs q)

/-- `DataFrameLoadTool.run`: the `except` clause converts any raised error
to the "Error loading dataset" diagnostic (lines 53-54). -/
def loadRun (fs : FS) (p : String) : ToolOut × FS :=
  match loadRunExc fs p with
  | .ok r => r
  | .error e => (.msg ("Error loading dataset: " ++ e), fs)

/-- Default `percentiles` argument of `describe` ([0.25, 0.5, 0.75]). -/
def pctsDefault : JVal :=
  .arr [.num (1 / 4 : ℚ), .num (1 / 2 : ℚ), .num (3 / 4 : ℚ)]

/-- `df.describe(percentiles=...).to_dict()`: with at least one numeric
column pandas restricts to the numeric columns (one stats mapping per such
column); with none it falls back to the object-column summary. -/
def describePayload (env : Env) (pcts : JVal) (df : DataFrame) :
    Except String JVal :=
  if (numericCols df).isEmpty then env.objectDescribe pcts df
  else
    match env.validatePcts pcts with
    | .error e => .error e
    | .ok _ =>
      .ok (.obj ((numericCols df).map fun c => (c, env.colStats pcts (colCells df c))))

/-- `numeric_df.corr().to_dict()`: a nested mapping over the numeric columns
whose entries come from the Pearson kernel. -/
def corrPayload (env : Env) (ndf : DataFrame) : JVal :=
  .obj (ndf.cols.map fun c =>
    (c, .obj (ndf.cols.map fun c2 => (c2, env.pearson (colCells ndf c2) (colCells ndf c)))))

/-- `df.head(limit)`'s argument: pandas accepts an integer and raises a
`TypeError` otherwise. -/
def headArg : JVal → Except String ℤ
  | .num q => if q.den = 1 then .ok q.num else .error "TypeError: cannot do positional indexing with a non-integer key"
  | _ => .error "TypeError: cannot do positional indexing with a non-integer key"

/-- Columns whose dtype is not numeric (`select_dtypes(include=['object',
'category'])` over our cell universe). -/
def nonNumericCols (df : DataFrame) : List String :=
  df.cols.filter fun c => !(colCells df c).all isNumCell

/-- `str()` of a cell as it becomes a JSON object key. -/
def valueKey : Value → String
  | .str s => s
  | .num q => numText q
  | .null => "nan"

/-- `Series.value_counts().to_dict()`: occurrence counts of the distinct
non-missing values. -/
def valueCounts (cells : List Value) : List (String × JVal) :=
  ((cells.filter fun v => v ≠ .null).dedup).map fun v =>
    (valueKey v, .num (((cells.filter fun w => w = v).length : ℚ)))

/-- The `summary` operation's composite payload (lines 134-146). -/
def summaryPayload (env : Env) (df : DataFrame) : Except String JVal :=
  match describePayload env pctsDefault df with
  | .error e => .error e
  | .ok ns =>
    .ok (.obj
      [("shape", shapeJ df),
       ("dtypes", .obj (df.cols.map fun c => (c, .str (dtypeName (colCells df c))))),
       ("missing_values", .obj (df.cols.map fun c =>
          (c, .num (((colCells df c).filter fun v => v = .null).length : ℚ)))),
       ("numeric_summary", ns),
       ("categorical_summary", .obj ((nonNumericCols df).map fun c =>
          (c, .obj (valueCounts (colCells df c)))))])

/-- The operation dispatch of `DataFrameAnalysisTool.run` (lines 96-163),
entered with the staged DataFrame already loaded. -/
def analysisDispatch (env : Env) (operation : JVal)
    (params : List (String × JVal)) (df : DataFrame) : Except String ToolOut :=
  if jEqS operation "describe" then
    match describePayload env (objGetD params "percentiles" pctsDefault) df with
    | .error e => .error e
    | .ok j => .ok (.payload j)
  else if jEqS operation "correlation" then
    let ndf := selectNumeric df
    if dfEmpty ndf then .ok (.msg "No numeric columns found for correlation analysis")
    else .ok (.payload (corrPayload env ndf))
  else if jEqS operation "groupby" then
    match objGet params "columns" with
    | none => .ok (.msg "Error: 'columns' parameter required for groupby operation")
    | some cv =>
      let gcols := match cv with
        | .str s => JVal.arr [.str s]
        | v => v
      match env.groupbyAgg gcols (objGetD params "aggregation" (.str "mean")) df with
      | .error e => .error e
      | .ok j => .ok (.payload j)
  else if jEqS operation "query" then
    match objGet params "filter" with
    | none => .ok (.msg "Error: 'filter' parameter required for query operation")
    | some fv =>
      match env.evalQuery fv df with
      | .error e => .error e
      | .ok fdf =>
        match headArg (objGetD params "limit" (.num 10)) with
        | .error e => .error e
        | .ok k =>
          .ok (.payload (.obj
            [("shape", shapeJ fdf),
             ("data", .arr (recordsOf (dfHead k fdf)))]))
  else if jEqS operation "summary" then
    match summaryPayload env df with
    | .error e => .error e
    | .ok j => .ok (.payload j)
  else if jEqS operation "custom" then
    match objGet params "code" with
    | none => .ok (.msg "Error: 'code' parameter required for custom operation")
    | some codeJ =>
      match env.evalCustom codeJ df with
      | .error e => .error e
      | .ok (.frame d) => .ok (.payload (.arr (recordsOf d)))
      | .ok (.val j) => .ok (.payload j)
  else .ok (.msg ("Error: Unsupported operation '" ++ pyStr operation ++ "'"))

/-- Requests' shared preamble (lines 85-90 / 198-204): the parsed JSON must
be a dict (`.get` on anything else raises `AttributeError`), `parameters`
defaults to an empty dict and must itself be a dict, and `temp_path` must be
a string to be usable as a path. -/
def requestPre (parsed : Except String JVal) :
    Except String (List (String × JVal) × List (String × JVal) × String) :=
  match parsed with
  | .error e => .error e
  | .ok (.obj kvs) =>
    match objGetD kvs "parameters" (.obj []) with
    | .obj params =>
      match objGetD params "temp_path" (.str "temp_dataframe.csv") with
      | .str tp => .ok (kvs, params, tp)
      | _ => .error "TypeError: argument should be a str or an os.PathLike object"
    | _ => .error "AttributeError: object has no attribute 'get'"
  | .ok _ => .error "AttributeError: object has no attribute 'get'"

/-- Loading the staged IR (lines 91-94 / 205-208): `.inl` is the early
"file not found" diagnostic, `.inr` the reloaded DataFrame; unreadable or
headerless staged content raises. -/
def stagedDf (fs : FS) (tp : String) : Except String (String ⊕ DataFrame) :=
  match fs tp with
  | none => .ok (.inl ("Error: Temporary DataFrame file not found at " ++ tp))
  | some (.corrupt r) => .error r
  | some (.table t) =>
    match readCsvDf t with
    | .error e => .error e
    | .ok df => .ok (.inr df)

/-- Body of `DataFrameAnalysisTool.run` inside its `try` (lines 83-163). -/
def analysisRunExc (env : Env) (fs : FS) (parsed : Except String JVal) :
    Except String ToolOut :=
  match requestPre parsed with
  | .error e => .error e
  | .ok (kvs, params, tp) =>
    match stagedDf fs tp with
    | .error e => .error e
    | .ok (.inl m) => .ok (.msg m)
    | .ok (.inr df) => analysisDispatch env (objGetD kvs "operation" .null) params df

/-- `DataFrameAnalysisTool.run`: the `except` clause converts any raised
error to the "Error during DataFrame analysis" diagnostic (lines 165-166). -/
def analysisRun (env : Env) (fs : FS) (parsed : Except String JVal) : ToolOut :=
  match analysisRunExc env fs parsed with
  | .ok r => r
  | .error e => .msg ("Error during DataFrame analysis: " ++ e)

/-- `df[j]` column selection: a `KeyError` unless `j` is the name of a
column. -/
def dfCol (df : DataFrame) : JVal → Except String (List Value)
  | .str s =>
    if s ∈ df.cols then .ok (colCells df s)
    else .error ("KeyError: '" ++ s ++ "'")
  | v => .error ("KeyError: " ++ pyRepr v)

/-- Ordering used by `sort_values` within one dtype; pandas keeps missing
values last. -/
def cellLe : Value → Value → Bool
  | .null, .null => true
  | .null, _ => false
  | _, .null => true
  | .num a, .num b => decide (a ≤ b)
  | .str a, .str b => decide (a ≤ b)
  | _, _ => true

/-- Insertion into a sorted row list by the cell at index `j`. -/
def insertRowBy (j : ℕ) (r : List Value) : List (List Value) → List (List Value)
  | [] => [r]
  | s :: rest =>
    if cellLe (r.getD j .null) (s.getD j .null) then r :: s :: rest
    else s :: insertRowBy j r rest

/-- Sort of the row list by the cell at index `j`. -/
def sortRowsBy (j : ℕ) : List (List Value) → List (List Value)
  | [] => []
  | r :: rest => insertRowBy j r (sortRowsBy j rest)

/-- `df.sort_values(by=x)`: `KeyError` for a non-column, `TypeError` when the
column mixes numbers and text, otherwise the rows ordered by that column. -/
def dfSortBy (df : DataFrame) : JVal → Except String DataFrame
  | .str s =>
    if s ∈ df.cols then
      let cells := colCells df s
      if (cells.all isNumCell) || (cells.all fun v => match v with | .str _ => true | .null => true | _ => false) then
        .ok ⟨df.cols, sortRowsBy (colIdx df.cols s) df.rows⟩
      else .error "TypeError: '<' not supported between instances of 'str' and 'float'"
    else .error ("KeyError: '" ++ s ++ "'")
  | v => .error ("KeyError: " ++ pyRepr v)

/-- Slash-joined path segments. -/
def joinSlash : List (List Char) → List Char
  | [] => []
  | [a] => a
  | a :: rest => a ++ '/' :: joinSlash rest

/-- `os.path.dirname`. -/
def dirnameOf (p : String) : String :=
  String.mk (joinSlash ((splitOnChar '/' p.data).dropLast))

/-- The side effects of one Renderer call: whether the bar branch rotated the
x labels, and the path written by `savefig` (none when no figure was saved). -/
structure VisTrace where
  rotated : Bool
  saved : Option String
deriving DecidableEq

/-- The plot dispatch of `DataVisualizationTool.run` (lines 214-286): `.inl`
is an early diagnostic return (before any figure is saved), `.inr` the
completed branch carrying whether it rotated the x labels. -/
def visDispatch (env : Env) (df : DataFrame) (pt : JVal)
    (params : List (String × JVal)) : Except String (String ⊕ Bool) :=
  if jEqS pt "histogram" then
    match objGet params "column" with
    | none => .ok (.inl "Error: 'column' parameter required for histogram")
    | some colJ =>
      match env.histplot df colJ (objGetD params "kde" (.bool false)) with
      | .error e => .error e
      | .ok _ => .ok (.inr false)
  else if jEqS pt "scatter" then
    match objGet params "x", objGet params "y" with
    | some xJ, some yJ =>
      let hv := objGet params "hue"
      let useHue := match hv with
        | some (.str h) => jTruthy (.str h) && decide (h ∈ df.cols)
        | _ => false
      match env.scatterplot df xJ yJ (if useHue then hv else none) with
      | .error e => .error e
      | .ok _ => .ok (.inr false)
    | _, _ => .ok (.inl "Error: 'x' and 'y' parameters required for scatter plot")
  else if jEqS pt "bar" then
    match objGet params "x", objGet params "y" with
    | some xJ, some yJ =>
      match env.barplot df xJ yJ with
      | .error e => .error e
      | .ok _ =>
        match dfCol df xJ with
        | .error e => .error e
        | .ok cells => .ok (.inr (decide (5 < nuniqueCells cells)))
    | _, _ => .ok (.inl "Error: 'x' and 'y' parameters required for bar chart")
  else if jEqS pt "line" then
    match objGet params "x", objGet params "y" with
    | some xJ, some yJ =>
      match dfSortBy df xJ with
      | .error e => .error e
      | .ok sdf =>
        match env.lineplot sdf xJ yJ with
        | .error e => .error e
        | .ok _ => .ok (.inr false)
    | _, _ => .ok (.inl "Error: 'x' and 'y' parameters required for line chart")
  else if jEqS pt "correlation_heatmap" then
    let ndf := selectNumeric df
    if dfEmpty ndf then .ok (.inl "No numeric columns found for correlation heatmap")
    else
      match env.heatmap (corrPayload env ndf)
          (objGetD params "show_values" (.bool true))
          (objGetD params "colormap" (.str "coolwarm")) with
      | .error e => .error e
      | .ok _ => .ok (.inr false)
  else if jEqS pt "boxplot" then
    match objGet params "column" with
    | none => .ok (.inl "Error: 'column' parameter required for boxplot")
    | some colJ =>
      match env.boxplot df colJ (objGet params "group_by") with
      | .error e => .error e
      | .ok _ => .ok (.inr false)
  else .ok (.inl ("Error: Unsupported plot type '" ++ pyStr pt ++ "'"))

/-- Body of `DataVisualizationTool.run` inside its `try` (lines 196-295):
result string plus the call's side effects. -/
def visRunExc (env : Env) (fs : FS) (parsed : Except String JVal) :
    Except String (String × VisTrace) :=
  match requestPre parsed with
  | .error e => .error e
  | .ok (kvs, params, tp) =>
    match stagedDf fs tp with
    | .error e => .error e
    | .ok (.inl m) => .ok (m, ⟨false, none⟩)
    | .ok (.inr df) =>
      match visDispatch env df (objGetD kvs "plot_type" .null) params with
      | .error e => .error e
      | .ok (.inl m) => .ok (m, ⟨false, none⟩)
      | .ok (.inr rotated) =>
        match objGetD kvs "save_path" (.str "visualization.png") with
        | .str sp =>
          let d := dirnameOf sp
          match env.makedirs (if d = "" then "." else d) with
          | .error e => .error e
          | .ok _ =>
            match env.saveFigure sp with
            | .error e => .error e
            | .ok _ => .ok ("Visualization saved to " ++ sp, ⟨rotated, some sp⟩)
        | _ => .error "TypeError: expected str, bytes or os.PathLike object"

/-- `DataVisualizationTool.run`: the `except` clause converts any raised
error to the "Error creating visualization" diagnostic (lines 297-298). -/
def visRun (env : Env) (fs : FS) (parsed : Except String JVal) :
    String × VisTrace :=
  match visRunExc env fs parsed with
  | .ok r => r
  | .error e => ("Error creating visualization: " ++ e, ⟨false, none⟩)

/-- A concrete library environment for evaluating claims on closed inputs:
every kernel succeeds, the Pearson kernel returns 1, the query engine keeps
all rows. -/
def env0 : Env where
  colStats := fun _ _ => .num 0
  validatePcts := fun _ => .ok ()
  objectDescribe := fun _ _ => .ok .null
  pearson := fun _ _ => .num 1
  groupbyAgg := fun _ _ _ => .ok .null
  evalQuery := fun _ df => .ok df
  evalCustom := fun _ _ => .ok (.val .null)
  histplot := fun _ _ _ => .ok ()
  scatterplot := fun _ _ _ _ => .ok ()
  barplot := fun _ _ _ => .ok ()
  lineplot := fun _ _ _ => .ok ()
  heatmap := fun _ _ _ => .ok ()
  boxplot := fun _ _ _ => .ok ()
  makedirs := fun _ => .ok ()
  saveFigure := fun _ => .ok ()

/-- A filesystem holding exactly one file. -/
def fs1 (path : String) (c : FileContent) : FS :=
  fun p => if p = path then some c else none

/-- The numeric/text example table of the spec: `A=[1,2,3]`,
`B=["x","y","z"]`. -/
def tAB : RawCsv := ⟨["A", "B"], [["1", "x"], ["2", "y"], ["3", "z"]]⟩

/-- Claim C1: for every input, each of the three public `run` entry points
returns a result value and never propagates an exception: either the body
completes and its value is returned, or the body raises and the caller
receives the corresponding human-readable diagnostic string (with the
"Error loading dataset" / "Error during DataFrame analysis" /
"Error creating visualization" prefix) as a normal return value. -/
theorem run_never_raises (env : Env) (fs : FS) (p : String)
    (parsed : Except String JVal) :
    ((∃ r, loadRunExc fs p = .ok r ∧ loadRun fs p = r) ∨
     (∃ e, loadRunExc fs p = .error e ∧
        loadRun fs p = (.msg ("Error loading dataset: " ++ e), fs))) ∧
    ((∃ r, analysisRunExc env fs parsed = .ok r ∧ analysisRun env fs parsed = r) ∨
     (∃ e, analysisRunExc env fs parsed = .error e ∧
        analysisRun env fs parsed = .msg ("Error during DataFrame analysis: " ++ e))) ∧
    ((∃ r, visRunExc env fs parsed = .ok r ∧ visRun env fs parsed = r) ∨
     (∃ e, visRunExc env fs parsed = .error e ∧
        visRun env fs parsed = ("Error creating visualization: " ++ e, ⟨false, none⟩))) := by
  refine ⟨?_, ?_, ?_⟩
  · cases h : loadRunExc fs p with
    | ok r => exact .inl ⟨r, rfl, by simp [loadRun, h]⟩
    | error e => exact .inr ⟨e, rfl, by simp [loadRun, h]⟩
  · cases h : analysisRunExc env fs parsed with
    | ok r => exact .inl ⟨r, rfl, by simp [analysisRun, h]⟩
    | error e => exact .inr ⟨e, rfl, by simp [analysisRun, h]⟩
  · cases h : visRunExc env fs parsed with
    | ok r => exact .inl ⟨r, rfl, by simp [visRun, h]⟩
    | error e => exact .inr ⟨e, rfl, by simp [visRun, h]⟩

/-- Claim C4: the groupby operation invoked with `{"columns": "A"}` produces
output identical to the invocation with `{"columns": ["A"]}`, all other
parameters (and the staged data, and the library environment) being equal:
a single string column specification is treated as the one-element list. -/
theorem groupby_string_eq_list (env : Env) (fs : FS) (a : String)
    (rest : List (String × JVal)) :
    analysisRun env fs (.ok (.obj [("operation", .str "groupby"),
      ("parameters", .obj (("columns", .str a) :: rest))])) =
    analysisRun env fs (.ok (.obj [("operation", .str "groupby"),
      ("parameters", .obj (("columns", .arr [.str a]) :: rest))])) := by
  have hd : ∀ df, analysisDispatch env (.str "groupby") (("columns", .str a) :: rest) df =
      analysisDispatch env (.str "groupby") (("columns", .arr [.str a]) :: rest) df := by
    intro df
    simp [analysisDispatch, jEqS, objGet, objGetD]
  have hexc : analysisRunExc env fs (.ok (.obj [("operation", .str "groupby"),
      ("parameters", .obj (("columns", .str a) :: rest))])) =
      analysisRunExc env fs (.ok (.obj [("operation", .str "groupby"),
      ("parameters", .obj (("columns", .arr [.str a]) :: rest))])) := by
    unfold analysisRunExc requestPre
    simp only [objGetD]
    simp [objGet]
    cases htp : objGet rest "temp_path" with
    | none =>
      simp only [htp, Option.getD_none]
      cases hs : stagedDf fs "temp_dataframe.csv" with
      | error e => rfl
      | ok r =>
        rcases r with m | df
        · rfl
        · simpa using hd df
    | some v =>
      simp only [htp, Option.getD_some]
      cases v <;> rfl
  unfold analysisRun
  rw [hexc]

/-- The spec's example table staged at the well-known path. -/
def fsAB : FS := fs1 "temp_dataframe.csv" (.table tAB)

/-- Claim C6: when the effective `parameters.temp_path` (defaulting to
"temp_dataframe.csv") names a file that does not exist, both the Dispatcher
and the Renderer return the diagnostic naming that path and execute no
operation (the Renderer's trace shows nothing rendered or saved); the data
is only ever loaded from the staged path, never from the original source. -/
theorem staging_missing_diag (env : Env) (fs : FS) (opv pv : JVal)
    (params : List (String × JVal)) (tp : String)
    (h1 : objGetD params "temp_path" (.str "temp_dataframe.csv") = .str tp)
    (h2 : fs tp = none) :
    analysisRun env fs (.ok (.obj [("operation", opv), ("parameters", .obj params)])) =
      .msg ("Error: Temporary DataFrame file not found at " ++ tp) ∧
    visRun env fs (.ok (.obj [("plot_type", pv), ("parameters", .obj params)])) =
      ("Error: Temporary DataFrame file not found at " ++ tp, ⟨false, none⟩) := by
  constructor
  · unfold analysisRun analysisRunExc requestPre stagedDf
    simp only [objGetD] at h1 ⊢
    simp [objGet, h1, h2]
  · unfold visRun visRunExc requestPre stagedDf
    simp only [objGetD] at h1 ⊢
    simp [objGet, h1, h2]

/-- Witness for C6: an empty filesystem, the default staging path. -/
theorem staging_missing_diag_witness :
    analysisRun env0 (fun _ => none)
      (.ok (.obj [("operation", .str "describe"), ("parameters", .obj [])])) =
      .msg ("Error: Temporary DataFrame file not found at " ++ "temp_dataframe.csv") ∧
    visRun env0 (fun _ => none)
      (.ok (.obj [("plot_type", .str "histogram"), ("parameters", .obj [])])) =
      ("Error: Temporary DataFrame file not found at " ++ "temp_dataframe.csv", ⟨false, none⟩) :=
  staging_missing_diag env0 (fun _ => none) (.str "describe") (.str "histogram")
    [] "temp_dataframe.csv" rfl rfl

/-- Claim C10: a request whose JSON parses to a dict without the
"operation" (resp. "plot_type") key is not a parse failure: the missing key
reads as `None`, dispatch falls through every branch, and the call returns
the unsupported-kind diagnostic naming the literal text "None". -/
theorem missing_kind_reads_none (env : Env) (fs : FS)
    (kvs kvs2 params params2 : List (String × JVal)) (tp tp2 : String) (t t2 : RawCsv)
    (ha0 : objGet kvs "operation" = none)
    (ha1 : objGetD kvs "parameters" (.obj []) = .obj params)
    (ha2 : objGetD params "temp_path" (.str "temp_dataframe.csv") = .str tp)
    (ha3 : fs tp = some (.table t))
    (ha4 : t.header.isEmpty = false)
    (hv0 : objGet kvs2 "plot_type" = none)
    (hv1 : objGetD kvs2 "parameters" (.obj []) = .obj params2)
    (hv2 : objGetD params2 "temp_path" (.str "temp_dataframe.csv") = .str tp2)
    (hv3 : fs tp2 = some (.table t2))
    (hv4 : t2.header.isEmpty = false) :
    analysisRun env fs (.ok (.obj kvs)) = .msg "Error: Unsupported operation 'None'" ∧
    visRun env fs (.ok (.obj kvs2)) =
      ("Error: Unsupported plot type 'None'", ⟨false, none⟩) := by
  constructor
  · unfold analysisRun analysisRunExc requestPre stagedDf readCsvDf analysisDispatch
    simp only [objGetD] at ha1 ha2 ⊢
    simp [ha0, ha1, ha2, ha3, ha4, jEqS, pyStr, pyRepr]
  · unfold visRun visRunExc requestPre stagedDf readCsvDf visDispatch
    simp only [objGetD] at hv1 hv2 ⊢
    simp [hv0, hv1, hv2, hv3, hv4, jEqS, pyStr, pyRepr]

/-- Witness for C10: a staged table and requests holding only `parameters`. -/
theorem missing_kind_reads_none_witness :
    analysisRun env0 fsAB (.ok (.obj [("parameters", .obj [])])) =
      .msg "Error: Unsupported operation 'None'" ∧
    visRun env0 fsAB (.ok (.obj [("parameters", .obj [])])) =
      ("Error: Unsupported plot type 'None'", ⟨false, none⟩) :=
  missing_kind_reads_none env0 fsAB [("parameters", .obj [])] [("parameters", .obj [])]
    [] [] "temp_dataframe.csv" "temp_dataframe.csv" tAB tAB
    rfl rfl rfl rfl rfl rfl rfl rfl rfl rfl

/-- Keys of a tagging map are the tagged list itself. -/
theorem map_fst_tag {X : Type} (l : List String) (g : String → X) :
    (l.map fun c => (c, g c)).map Prod.fst = l := by
  induction l with
  | nil => rfl
  | cons a l ih => simp only [List.map_cons]; exact congrArg (List.cons a) ih

/-- Claim C2: `describe` and `correlation` operate only on the columns whose
inferred type is numeric, silently excluding the rest: when the numeric
selection is nonempty, `correlation` returns a matrix keyed (on both axes)
exactly by the numeric columns, and `describe` returns one stats entry per
numeric column; when the numeric selection is empty, `correlation` returns
the diagnostic instead of a matrix. -/
theorem numeric_columns_only (env : Env) (fs : FS) (params : List (String × JVal))
    (tp : String) (t : RawCsv)
    (h1 : objGetD params "temp_path" (.str "temp_dataframe.csv") = .str tp)
    (h2 : fs tp = some (.table t))
    (h3 : t.header.isEmpty = false) :
    (dfEmpty (selectNumeric (dfOfRaw t)) = false →
      analysisRun env fs (.ok (.obj [("operation", .str "correlation"),
        ("parameters", .obj params)])) =
        .payload (corrPayload env (selectNumeric (dfOfRaw t))) ∧
      ∃ M, corrPayload env (selectNumeric (dfOfRaw t)) = .obj M ∧
        M.map Prod.fst = numericCols (dfOfRaw t) ∧
        ∀ pr ∈ M, ∃ N, pr.2 = .obj N ∧ N.map Prod.fst = numericCols (dfOfRaw t)) ∧
    (dfEmpty (selectNumeric (dfOfRaw t)) = true →
      analysisRun env fs (.ok (.obj [("operation", .str "correlation"),
        ("parameters", .obj params)])) =
        .msg "No numeric columns found for correlation analysis") ∧
    (numericCols (dfOfRaw t) ≠ [] →
      env.validatePcts (objGetD params "percentiles" pctsDefault) = .ok () →
      analysisRun env fs (.ok (.obj [("operation", .str "describe"),
        ("parameters", .obj params)])) =
        .payload (.obj ((numericCols (dfOfRaw t)).map fun c =>
          (c, env.colStats (objGetD params "percentiles" pctsDefault)
            (colCells (dfOfRaw t) c)))) ∧
      (((numericCols (dfOfRaw t)).map fun c =>
          (c, env.colStats (objGetD params "percentiles" pctsDefault)
            (colCells (dfOfRaw t) c))).map Prod.fst) = numericCols (dfOfRaw t)) := by
  refine ⟨?_, ?_, ?_⟩
  · intro hne
    constructor
    · unfold analysisRun analysisRunExc requestPre stagedDf readCsvDf analysisDispatch
      simp only [objGetD] at h1 ⊢
      simp [objGet, h1, h2, h3, jEqS, hne]
    · refine ⟨_, rfl, ?_, ?_⟩
      · exact map_fst_tag _ _
      · intro pr hpr
        rcases List.mem_map.mp hpr with ⟨c, hc, rfl⟩
        exact ⟨_, rfl, map_fst_tag _ _⟩
  · intro hem
    unfold analysisRun analysisRunExc requestPre stagedDf readCsvDf analysisDispatch
    simp only [objGetD] at h1 ⊢
    simp [objGet, h1, h2, h3, jEqS, hem]
  · intro hne hval
    have h4 : (numericCols (dfOfRaw t)).isEmpty = false := by
      cases hnc : numericCols (dfOfRaw t) with
      | nil => exact absurd hnc hne
      | cons a l => rfl
    constructor
    · unfold analysisRun analysisRunExc requestPre stagedDf readCsvDf analysisDispatch describePayload
      simp only [objGetD] at h1 hval ⊢
      simp [objGet, h1, h2, h3, jEqS, h4, hval]
    · exact map_fst_tag _ _

/-- Witness for C2 at the spec's example: `A=[1,2,3]`, `B=["x","y","z"]`
gives a 1-by-1 correlation matrix for `A` only and a describe payload keyed
by `A` only; a dataset with only the text column gives the diagnostic. -/
theorem numeric_columns_only_witness :
    analysisRun env0 fsAB (.ok (.obj [("operation", .str "correlation"),
      ("parameters", .obj [])])) =
      .payload (.obj [("A", .obj [("A", .num 1)])]) ∧
    analysisRun env0 (fs1 "temp_dataframe.csv" (.table ⟨["B"], [["x"]]⟩))
      (.ok (.obj [("operation", .str "correlation"), ("parameters", .obj [])])) =
      .msg "No numeric columns found for correlation analysis" ∧
    analysisRun env0 fsAB (.ok (.obj [("operation", .str "describe"),
      ("parameters", .obj [])])) =
      .payload (.obj [("A", .num 0)]) := by
  have h := numeric_columns_only env0 fsAB [] "temp_dataframe.csv" tAB rfl rfl rfl
  have h2 := numeric_columns_only env0 (fs1 "temp_dataframe.csv" (.table ⟨["B"], [["x"]]⟩))
    [] "temp_dataframe.csv" ⟨["B"], [["x"]]⟩ rfl rfl rfl
  refine ⟨?_, ?_, ?_⟩
  · exact ((h.1 (by decide)).1).trans rfl
  · exact h2.2.1 (by decide)
  · exact ((h.2.2 (by decide) rfl).1).trans rfl

/-- Claim C3: for a query whose filter selects `n` rows and a limit of `k`
(`10` when the parameter is absent), the result's `shape` field reports the
full filtered row count while `data` holds exactly `min n k` records taken
from the head of the filtered rows in order. -/
theorem query_limit_vs_shape (env : Env) (fs : FS) (params : List (String × JVal))
    (tp : String) (t : RawCsv) (fv : JVal) (fdf : DataFrame) (k : ℕ)
    (h1 : objGetD params "temp_path" (.str "temp_dataframe.csv") = .str tp)
    (h2 : fs tp = some (.table t))
    (h3 : t.header.isEmpty = false)
    (h4 : objGet params "filter" = some fv)
    (h5 : env.evalQuery fv (dfOfRaw t) = .ok fdf)
    (h6 : objGet params "limit" = some (.num (k : ℚ)) ∨
          (objGet params "limit" = none ∧ k = 10)) :
    analysisRun env fs (.ok (.obj [("operation", .str "query"),
      ("parameters", .obj params)])) =
      .payload (.obj [("shape", shapeJ fdf),
        ("data", .arr (recordsOf (dfHead (k : ℤ) fdf)))]) ∧
    (recordsOf (dfHead (k : ℤ) fdf)).length = min fdf.rows.length k := by
  constructor
  · have hk : headArg ((objGet params "limit").getD (.num 10)) = .ok (k : ℤ) := by
      rcases h6 with h6 | ⟨h6, rfl⟩
      · simp [h6, headArg, Rat.den_natCast, Rat.num_natCast]
      · simp [h6, headArg]
    unfold analysisRun analysisRunExc requestPre stagedDf readCsvDf analysisDispatch
    simp only [objGetD] at h1 ⊢
    simp [objGet, h1, h2, h3, h4, h5, jEqS, hk]
  · have hnn : (0 : ℤ) ≤ (k : ℤ) := Int.natCast_nonneg k
    simp [recordsOf, dfHead, hnn, List.length_take, Nat.min_comm]

/-- A staged single-column table with 50 identical numeric rows. -/
def t50 : RawCsv := ⟨["v"], List.replicate 50 ["1"]⟩

/-- Witness for C3: the spec's instance — a filter keeping all 50 rows and
the default limit 10 gives a `shape` of 50 rows and exactly 10 data
records. -/
theorem query_limit_vs_shape_witness :
    analysisRun env0 (fs1 "temp_dataframe.csv" (.table t50))
      (.ok (.obj [("operation", .str "query"),
        ("parameters", .obj [("filter", .str "v > 0")])])) =
      .payload (.obj [("shape", shapeJ (dfOfRaw t50)),
        ("data", .arr (recordsOf (dfHead ((10 : ℕ) : ℤ) (dfOfRaw t50))))]) ∧
    (recordsOf (dfHead ((10 : ℕ) : ℤ) (dfOfRaw t50))).length = 10 ∧
    (dfOfRaw t50).rows.length = 50 := by
  have h := query_limit_vs_shape env0 (fs1 "temp_dataframe.csv" (.table t50))
    [("filter", .str "v > 0")] "temp_dataframe.csv" t50 (.str "v > 0")
    (dfOfRaw t50) 10 rfl rfl rfl rfl rfl (.inr ⟨rfl, rfl⟩)
  exact ⟨h.1, h.2.trans (by decide), by decide⟩

/-- Required parameters of each supported plot kind (lines 214-280). -/
def requiredParams (pt : String) : List String :=
  if pt = "histogram" then ["column"]
  else if pt = "scatter" then ["x", "y"]
  else if pt = "bar" then ["x", "y"]
  else if pt = "line" then ["x", "y"]
  else if pt = "boxplot" then ["column"]
  else []

/-- The diagnostic each plot kind returns when a required parameter is
absent. -/
def requiredMsg (pt : String) : String :=
  if pt = "histogram" then "Error: 'column' parameter required for histogram"
  else if pt = "scatter" then "Error: 'x' and 'y' parameters required for scatter plot"
  else if pt = "bar" then "Error: 'x' and 'y' parameters required for bar chart"
  else if pt = "line" then "Error: 'x' and 'y' parameters required for line chart"
  else if pt = "boxplot" then "Error: 'column' parameter required for boxplot"
  else ""

/-- Whether the second list opens the first. -/
def leadsWith : List Char → List Char → Bool
  | [], _ => true
  | _ :: _, [] => false
  | a :: as, b :: bs => a == b && leadsWith as bs

/-- Whether `sub` occurs contiguously in the list. -/
def hasSub (sub : List Char) : List Char → Bool
  | [] => sub.isEmpty
  | c :: cs => leadsWith sub (c :: cs) || hasSub sub cs

/-- Whether `sub` occurs in `s`. -/
def strMentions (s sub : String) : Bool := hasSub sub.data s.data

/-- Claim C5: a plot request missing a required parameter of its kind makes
the Renderer return the branch's error string — which names the missing
parameter in quotes — before any plotting: the call's trace saves no image
file at any path. -/
theorem missing_plot_param_diag (env : Env) (fs : FS)
    (kvs params : List (String × JVal)) (tp pt p : String) (t : RawCsv)
    (h0 : objGetD kvs "plot_type" .null = .str pt)
    (h1 : objGetD kvs "parameters" (.obj []) = .obj params)
    (h2 : objGetD params "temp_path" (.str "temp_dataframe.csv") = .str tp)
    (h3 : fs tp = some (.table t))
    (h4 : t.header.isEmpty = false)
    (h5 : pt ∈ ["histogram", "scatter", "bar", "line", "boxplot"])
    (h6 : p ∈ requiredParams pt)
    (h7 : objGet params p = none) :
    visRun env fs (.ok (.obj kvs)) = (requiredMsg pt, ⟨false, none⟩) ∧
    strMentions (requiredMsg pt) ("'" ++ p ++ "'") = true ∧
    (visRun env fs (.ok (.obj kvs))).2.saved = none := by
  have hrun : visRun env fs (.ok (.obj kvs)) = (requiredMsg pt, ⟨false, none⟩) := by
    simp only [List.mem_cons, List.not_mem_nil, or_false] at h5
    unfold visRun visRunExc requestPre stagedDf readCsvDf visDispatch
    simp only [objGetD] at h0 h1 h2 ⊢
    rcases h5 with rfl | rfl | rfl | rfl | rfl
    · simp only [requiredParams, if_pos] at h6
      simp only [List.mem_singleton] at h6
      subst h6
      simp [h0, h1, h2, h3, h4, jEqS, h7, requiredMsg]
    · simp [requiredParams] at h6
      rcases h6 with rfl | rfl
      · simp [h0, h1, h2, h3, h4, jEqS, h7, requiredMsg]
      · cases hx : objGet params "x" <;>
          simp [h0, h1, h2, h3, h4, jEqS, h7, hx, requiredMsg]
    · simp [requiredParams] at h6
      rcases h6 with rfl | rfl
      · simp [h0, h1, h2, h3, h4, jEqS, h7, requiredMsg]
      · cases hx : objGet params "x" <;>
          simp [h0, h1, h2, h3, h4, jEqS, h7, hx, requiredMsg]
    · simp [requiredParams] at h6
      rcases h6 with rfl | rfl
      · simp [h0, h1, h2, h3, h4, jEqS, h7, requiredMsg]
      · cases hx : objGet params "x" <;>
          simp [h0, h1, h2, h3, h4, jEqS, h7, hx, requiredMsg]
    · simp [requiredParams] at h6
      subst h6
      simp [h0, h1, h2, h3, h4, jEqS, h7, requiredMsg]
  refine ⟨hrun, ?_, by rw [hrun]⟩
  simp only [List.mem_cons, List.not_mem_nil, or_false] at h5
  rcases h5 with rfl | rfl | rfl | rfl | rfl <;>
    simp [requiredParams] at h6 <;>
    rcases h6 with rfl | rfl <;> decide

/-- Witness for C5 at the spec's instance: a scatter request with `x` but no
`y` returns the error string naming `y` and saves nothing. -/
theorem missing_plot_param_diag_witness :
    visRun env0 fsAB (.ok (.obj [("plot_type", .str "scatter"),
      ("parameters", .obj [("x", .str "a")])])) =
      ("Error: 'x' and 'y' parameters required for scatter plot", ⟨false, none⟩) ∧
    strMentions "Error: 'x' and 'y' parameters required for scatter plot"
      ("'" ++ "y" ++ "'") = true := by
  have h := missing_plot_param_diag env0 fsAB
    [("plot_type", .str "scatter"), ("parameters", .obj [("x", .str "a")])]
    [("x", .str "a")] "temp_dataframe.csv" "scatter" "y" tAB
    rfl rfl rfl rfl rfl (by decide) (by decide) rfl
  exact ⟨h.1.trans rfl, by decide⟩

/-- Claim C8: in the bar branch, after a successful render and save, the
x-axis category labels are rotated exactly when the number of distinct
(non-missing) values of the `x` column is strictly greater than 5. -/
theorem bar_label_rotation (env : Env) (fs : FS) (kvs params : List (String × JVal))
    (tp sp x : String) (t : RawCsv) (yv : JVal)
    (h0 : objGetD kvs "plot_type" .null = .str "bar")
    (h1 : objGetD kvs "parameters" (.obj []) = .obj params)
    (h2 : objGetD params "temp_path" (.str "temp_dataframe.csv") = .str tp)
    (h3 : fs tp = some (.table t))
    (h4 : t.header.isEmpty = false)
    (h5 : objGet params "x" = some (.str x))
    (h6 : objGet params "y" = some yv)
    (h7 : x ∈ (dfOfRaw t).cols)
    (h8 : env.barplot (dfOfRaw t) (.str x) yv = .ok ())
    (h9 : objGetD kvs "save_path" (.str "visualization.png") = .str sp)
    (h10 : env.makedirs (if dirnameOf sp = "" then "." else dirnameOf sp) = .ok ())
    (h11 : env.saveFigure sp = .ok ()) :
    visRun env fs (.ok (.obj kvs)) =
      ("Visualization saved to " ++ sp,
       ⟨decide (5 < nuniqueCells (colCells (dfOfRaw t) x)), some sp⟩) := by
  unfold visRun visRunExc requestPre stagedDf readCsvDf visDispatch dfCol
  simp only [objGetD] at h0 h1 h2 h9 ⊢
  simp [h0, h1, h2, h3, h4, h5, h6, h7, h8, h9, h10, h11, jEqS]

/-- A category column with exactly 6 distinct values. -/
def t6 : RawCsv :=
  ⟨["c", "v"], [["a", "1"], ["b", "1"], ["c", "1"], ["d", "1"], ["e", "1"], ["f", "1"]]⟩

/-- A category column with exactly 5 distinct values. -/
def t5 : RawCsv :=
  ⟨["c", "v"], [["a", "1"], ["b", "1"], ["c", "1"], ["d", "1"], ["e", "1"]]⟩

/-- Witness for C8: 6 distinct categories rotate the labels, 5 do not. -/
theorem bar_label_rotation_witness :
    visRun env0 (fs1 "temp_dataframe.csv" (.table t6))
      (.ok (.obj [("plot_type", .str "bar"),
        ("parameters", .obj [("x", .str "c"), ("y", .str "v")])])) =
      ("Visualization saved to " ++ "visualization.png",
       ⟨true, some "visualization.png"⟩) ∧
    visRun env0 (fs1 "temp_dataframe.csv" (.table t5))
      (.ok (.obj [("plot_type", .str "bar"),
        ("parameters", .obj [("x", .str "c"), ("y", .str "v")])])) =
      ("Visualization saved to " ++ "visualization.png",
       ⟨false, some "visualization.png"⟩) := by
  have h6d := bar_label_rotation env0 (fs1 "temp_dataframe.csv" (.table t6))
    [("plot_type", .str "bar"), ("parameters", .obj [("x", .str "c"), ("y", .str "v")])]
    [("x", .str "c"), ("y", .str "v")] "temp_dataframe.csv" "visualization.png" "c" t6
    (.str "v") rfl rfl rfl rfl rfl rfl rfl (by decide) rfl rfl rfl rfl
  have h5d := bar_label_rotation env0 (fs1 "temp_dataframe.csv" (.table t5))
    [("plot_type", .str "bar"), ("parameters", .obj [("x", .str "c"), ("y", .str "v")])]
    [("x", .str "c"), ("y", .str "v")] "temp_dataframe.csv" "visualization.png" "c" t5
    (.str "v") rfl rfl rfl rfl rfl rfl rfl (by decide) rfl rfl rfl rfl
  exact ⟨h6d.trans (by decide), h5d.trans (by decide)⟩

/-- Reloading a staged table parses the same header and one cell row per
written row (a headerless staged table instead raises). -/
theorem readCsv_toCsv (df : DataFrame) (h : df.cols.isEmpty = false) :
    readCsvDf (toCsv df) =
      .ok ⟨df.cols, df.rows.map fun r => r.map fun v => parseCell (cellToCsv v)⟩ := by
  unfold readCsvDf toCsv dfOfRaw
  simp [h, List.map_map, Function.comp]

/-- Claim C7 (amended): for every dataset the Loader successfully parses and
stages that has at least one column, the staging write lands at the
well-known path, and reloading that IR — as the Dispatcher and Renderer do —
yields a dataset with the identical column set and identical row count (cell
dtypes may widen, which this statement does not constrain).  A zero-column
dataset stages to a headerless file whose reload raises instead (see the
counterexample). -/
theorem staging_roundtrip (fs : FS) (p : String) (df : DataFrame)
    (h1 : loadParse fs p = .ok (.inr df))
    (h2 : df.cols.isEmpty = false) :
    (loadRun fs p).1 = .payload (loadSummary df p) ∧
    (loadRun fs p).2 "temp_dataframe.csv" = some (.table (toCsv df)) ∧
    ∃ df', readCsvDf (toCsv df) = .ok df' ∧
      df'.cols = df.cols ∧ df'.rows.length = df.rows.length := by
  refine ⟨?_, ?_, ?_⟩
  · unfold loadRun loadRunExc
    simp [h1]
  · unfold loadRun loadRunExc
    simp [h1]
  · exact ⟨_, readCsv_toCsv df h2, rfl, by simp⟩

/-- The empty table a JSON source like `[]` parses to. -/
def tEmpty : RawCsv := ⟨[], []⟩

/-- A filesystem holding that empty JSON dataset. -/
def fsE : FS := fs1 "d.json" (.table tEmpty)

/-- Counterexample to C7 as stated: the Loader successfully stages the
zero-column dataset parsed from "d.json", but reloading the staged IR does
not yield any dataset at all — `read_csv` raises `EmptyDataError`, and a
subsequent Dispatcher call returns the corresponding diagnostic — so the
reload does not have the staged dataset's row count and column set. -/
theorem staging_roundtrip_cex :
    loadParse fsE "d.json" = .ok (.inr (DataFrame.mk [] [])) ∧
    (loadRun fsE "d.json").1 = .payload (loadSummary (DataFrame.mk [] []) "d.json") ∧
    (loadRun fsE "d.json").2 "temp_dataframe.csv" =
      some (.table (toCsv (DataFrame.mk [] []))) ∧
    readCsvDf (toCsv (DataFrame.mk [] [])) = .error "No columns to parse from file" ∧
    analysisRun env0 (loadRun fsE "d.json").2
      (.ok (.obj [("operation", .str "describe"), ("parameters", .obj [])])) =
      .msg ("Error during DataFrame analysis: " ++ "No columns to parse from file") :=
  ⟨rfl, rfl, rfl, rfl, rfl⟩

/-- Witness for C7 (amended) on a two-column CSV source. -/
theorem staging_roundtrip_witness :
    (loadRun (fs1 "a.csv" (.table tAB)) "a.csv").1 =
      .payload (loadSummary (dfOfRaw tAB) "a.csv") ∧
    (loadRun (fs1 "a.csv" (.table tAB)) "a.csv").2 "temp_dataframe.csv" =
      some (.table (toCsv (dfOfRaw tAB))) ∧
    ∃ df', readCsvDf (toCsv (dfOfRaw tAB)) = .ok df' ∧
      df'.cols = (dfOfRaw tAB).cols ∧ df'.rows.length = (dfOfRaw tAB).rows.length :=
  staging_roundtrip (fs1 "a.csv" (.table tAB)) "a.csv" (dfOfRaw tAB) rfl rfl

/-- Claim C9 (amended): the Loader takes the extension as the substring
after the last '.' of the source path, lowercased — so matching is
case-insensitive — and for a path with no '.' the entire lowercased path is
the extension; such a call returns the unsupported-format diagnostic
*unless* the whole lowercased path is itself one of the supported extension
names (csv, xls, xlsx, json), in which case a parse is attempted (second
conjunct, shown for csv). -/
theorem extension_dispatch (fs : FS) (p : String) (t : RawCsv) :
    (splitOnChar '.' p.data = [p.data] →
      lowerStr p ∉ (["csv", "xls", "xlsx", "json"] : List String) →
      loadRun fs p = (.msg ("Unsupported file format: " ++ lowerStr p), fs)) ∧
    (fileExt p = "csv" → fs p = some (.table t) → t.header.isEmpty = false →
      (loadRun fs p).1 = .payload (loadSummary (dfOfRaw t) p)) := by
  constructor
  · intro hnd hns
    have hfe : fileExt p = lowerStr p := by
      unfold fileExt
      rw [hnd]
      rfl
    simp only [List.mem_cons, List.not_mem_nil, or_false, not_or] at hns
    obtain ⟨hc, hx, hxx, hj⟩ := hns
    unfold loadRun loadRunExc loadParse
    rw [hfe]
    simp [hc, hx, hxx, hj]
  · intro hext hfs hh
    unfold loadRun loadRunExc loadParse getFile readCsvDf
    rw [hext]
    simp [hfs, hh]

/-- Counterexample to C9 as stated: "CSV" contains no '.' at all, yet the
call does not return the unsupported-format diagnostic (or any diagnostic):
the whole path lowercases to "csv", so a delimited-text parse is attempted
and here succeeds. -/
theorem extension_dispatch_cex :
    splitOnChar '.' "CSV".data = ["CSV".data] ∧
    (loadRun (fs1 "CSV" (.table tAB)) "CSV").1.isMsg = false :=
  ⟨by decide, rfl⟩

/-- Witness for C9 (amended): a dotless path not naming a format is
rejected with the lowercased whole path as the extension, and a ".CSV" path
is loaded as delimited text. -/
theorem extension_dispatch_witness :
    loadRun (fun _ => none) "README" =
      (.msg ("Unsupported file format: " ++ lowerStr "README"), fun _ => none) ∧
    (loadRun (fs1 "data.CSV" (.table tAB)) "data.CSV").1 =
      .payload (loadSummary (dfOfRaw tAB) "data.CSV") :=
  ⟨(extension_dispatch (fun _ => none) "README" tAB).1 (by decide) (by decide),
   (extension_dispatch (fs1 "data.CSV" (.table tAB)) "data.CSV" tAB).2 (by decide) rfl rfl⟩
